import Mathlib

/-!
Shallow embedding of the Air-Quality ELT pipeline core
(`src/pipeline/extraction.py`, `src/pipeline/transformation.py`,
`src/pipeline/database_manager.py`).

Conventions of the embedding:
* Python strings are Lean `String`; the character list of a string is `s.data`.
* Jinja2 template rendering (`jinja2.Template(t).render(**kwargs)`) for the
  straight-substitution templates used by this repository is modelled by
  `render`: every occurrence of a placeholder of the shape `\x7b\x7bname\x7d\x7d`
  is replaced by the bound value; an unbound placeholder renders as the empty
  string (Jinja2's default `Undefined` stringifies to "").  The substituted
  values are not re-scanned, as in Jinja2.
* `datetime.strptime(s, "%Y-%m")` is modelled by `parseYM`, which returns a
  month index `year * 12 + (month - 1)`.  Every `datetime` value reachable in
  `compile_data_file_paths` has `day = 1` and `month ∈ 1..12`, so these values
  are in order-preserving bijection with their month indexes, and
  `relativedelta(months=1)` is the successor on indexes while `<=` on
  `datetime` is `<=` on indexes.  `datetime` is bounded at `MAXYEAR = 9999`:
  incrementing past month index 119999 (9999-12) raises
  `ValueError: year 10000 is out of range`, which `monthLoop` models as an
  `.error` result.  CPython's `_strptime` accepts exactly four
  digits for `%Y` and one or two digits for `%m` with value 1..12, rejects a
  year of 0, and rejects trailing input; `parseYM` mirrors this and returns
  `none` where `strptime` raises `ValueError`.
* Query execution against the DuckDB connection is not pure, so each work
  item is paired with the `Outcome` the environment gives its execution:
  `Outcome.ok` (no exception), `Outcome.ioException` (the driver raises
  `duckdb.IOException`, the partition-not-found class caught in
  `extract_data`), or `Outcome.otherError` (any other exception class).
* A run's observable effects are collected in `RunResult`: the provenance of
  the items executed successfully, the provenance of the items skipped with a
  logged warning, how many times the connection was closed, and the
  provenance of a propagated fatal failure (if any).
* The on-disk directory tree walked by `os.walk` is modelled by `Dir`;
  `walk` produces the `(root, files)` pairs of `os.walk` top-down.  A
  nonexistent root directory is modelled by `none : Option Dir`: `os.walk`
  with the default `onerror=None` silently yields nothing for it.
-/

/-- Outcome the environment assigns to executing one work item through
`execute_query` (`database_manager.py` line 103, `con.execute(query)`). -/
inductive Outcome where
  | ok : Outcome
  | ioException : Outcome
  | otherError : Outcome
deriving DecidableEq

/-- Observable effects of one orchestration run: provenance of successfully
executed items, provenance of items skipped with a logged warning
(`logging.warning` in `extract_data` line 166), number of
`close_database_connection` calls, and the provenance of the item whose
exception propagated out of the run, if any. -/
structure RunResult where
  executed : List String
  skipped : List String
  sessionCloses : Nat
  failure : Option String
deriving DecidableEq

/-- Scan the characters following an opening `\x7b\x7b` for the closing
`\x7d\x7d`; return the placeholder name and the remaining characters. -/
def findPlaceholder : List Char → Option (String × List Char)
  | '}' :: '}' :: rest => some ("", rest)
  | c :: rest =>
    match findPlaceholder rest with
    | some (name, rest) => some (⟨c :: name.data⟩, rest)
    | none => none
  | [] => none

/-- Character-level template substitution.  `fuel` bounds the recursion; every
step consumes at least one character, so `fuel = length + 1` never runs out.
An unterminated `\x7b\x7b` is kept literally (never reached by the templates of
this repository, which are well formed). -/
def renderChars (b : String → String) : Nat → List Char → List Char
  | 0, cs => cs
  | _ + 1, [] => []
  | fuel + 1, '{' :: '{' :: rest =>
    match findPlaceholder rest with
    | some (name, rest) => (b name).data ++ renderChars b fuel rest
    | none => '{' :: '{' :: renderChars b fuel rest
  | fuel + 1, c :: rest => c :: renderChars b fuel rest

/-- Model of `jinja2.Template(t).render(...)` for the substitution-only
templates of this repository, with the binding given as a total function
(unbound names are bound to `""`, Jinja2's default `Undefined` rendering). -/
def render (b : String → String) (t : String) : String :=
  ⟨renderChars b (t.data.length + 1) t.data⟩

/-- Model of Python `str.zfill(width)` for strings without a sign character:
pad on the left with `'0'` up to `width`. -/
def zfill (width : Nat) (s : String) : String :=
  if width ≤ s.length then s else ⟨List.replicate (width - s.length) '0' ++ s.data⟩

/-- Numeric value of a decimal digit character. -/
def digitVal (c : Char) : Nat := c.toNat - 48

/-- Decide whether a character is a decimal digit. -/
def isDigitChar (c : Char) : Bool := 48 ≤ c.toNat && c.toNat ≤ 57

/-- Model of `datetime.strptime(s, "%Y-%m")` (`extraction.py` lines 69-70),
returning the month index `year * 12 + (month - 1)` of the parsed value.
CPython's `_strptime` matches `%Y` as exactly four digits and `%m` as
`1[0-2]|0[1-9]|[1-9]`, requires the whole string to be consumed, and
`datetime` rejects year 0; `none` models the raised `ValueError`. -/
def parseYM (s : String) : Option Nat :=
  match s.data with
  | [y1, y2, y3, y4, '-', m1] =>
    if isDigitChar y1 && isDigitChar y2 && isDigitChar y3 && isDigitChar y4 &&
        isDigitChar m1 then
      let year := ((digitVal y1 * 10 + digitVal y2) * 10 + digitVal y3) * 10 + digitVal y4
      let month := digitVal m1
      if 1 ≤ year ∧ 1 ≤ month then some (year * 12 + (month - 1)) else none
    else none
  | [y1, y2, y3, y4, '-', m1, m2] =>
    if isDigitChar y1 && isDigitChar y2 && isDigitChar y3 && isDigitChar y4 &&
        isDigitChar m1 && isDigitChar m2 then
      let year := ((digitVal y1 * 10 + digitVal y2) * 10 + digitVal y3) * 10 + digitVal y4
      let month := digitVal m1 * 10 + digitVal m2
      if 1 ≤ year ∧ 1 ≤ month ∧ month ≤ 12 then some (year * 12 + (month - 1)) else none
    else none
  | _ => none

/-- The data-file path template built in `extract_data`
(`extraction.py` line 137). -/
def dataFilePathTemplate : String :=
  "locationid={{location_id}}/year={{year}}/month={{month}}/*"

/-- Render one data-file path for a location and a month index: the body of
the `while` loop of `compile_data_file_paths` (`extraction.py` lines 80-84),
binding `location_id`, `year = str(index_date.year)` and
`month = str(index_date.month).zfill(2)`. -/
def renderPath (tmpl locId : String) (idx : Nat) : String :=
  render (fun n =>
    if n = "location_id" then locId
    else if n = "year" then toString (idx / 12)
    else if n = "month" then zfill 2 (toString (idx % 12 + 1))
    else "") tmpl

/-- The month index of `datetime.max`'s month: `MAXYEAR = 9999`, month 12,
so `9999 * 12 + (12 - 1) = 119999`.  `relativedelta(months=1)` computes the
next calendar month and calls `datetime.replace`, which raises
`ValueError: year 10000 is out of range` when the incremented month would
pass it. -/
def maxMonthIndex : Nat := 119999

/-- The `while index_date <= end_date` loop of `compile_data_file_paths`
(`extraction.py` lines 78-88) for one location, over month indexes.  Each
iteration renders the current month's path and then executes
`index_date += relativedelta(months=1)`; when that increment would exceed
`datetime.max` (end month 9999-12) it raises `ValueError`, discarding the
accumulated list — modelled as `.error`. -/
def monthLoop (tmpl locId : String) (s e : Nat) : Except String (List String) :=
  if _h : s ≤ e then
    if s + 1 ≤ maxMonthIndex then
      match monthLoop tmpl locId (s + 1) e with
      | .ok rest => .ok (renderPath tmpl locId s :: rest)
      | .error msg => .error msg
    else .error "ValueError: year 10000 is out of range"
  else .ok []
termination_by e + 1 - s
decreasing_by omega

/-- The `for location_id in location_ids` loop of `compile_data_file_paths`
(`extraction.py` lines 75-88), accumulating the rendered paths in order; an
exception raised inside one location's month loop propagates, so the
remaining locations are never processed. -/
def compileDataFilePathsLoop (tmpl : String) (locationIds : List String) (s e : Nat) :
    Except String (List String) :=
  match locationIds with
  | [] => .ok []
  | locId :: rest =>
    match monthLoop tmpl locId s e with
    | .ok paths =>
      match compileDataFilePathsLoop tmpl rest s e with
      | .ok restPaths => .ok (paths ++ restPaths)
      | .error msg => .error msg
    | .error msg => .error msg

/-- Model of `compile_data_file_paths` (`extraction.py` lines 47-90): parse
both date strings with `strptime` (a `ValueError` is modelled as `.error`),
then iterate per location and month. -/
def compileDataFilePaths (tmpl : String) (locationIds : List String)
    (startDate endDate : String) : Except String (List String) :=
  match parseYM startDate, parseYM endDate with
  | some s, some e => compileDataFilePathsLoop tmpl locationIds s e
  | _, _ => .error "ValueError: time data does not match format %Y-%m"

/-- Model of `compile_data_file_query` (`extraction.py` lines 92-111): render
the SQL template with `data_file_path` bound to `base_path + "/" + data_file_path`. -/
def compileDataFileQuery (basePath dataFilePath extractQueryTemplate : String) : String :=
  render (fun n => if n = "data_file_path" then basePath ++ "/" ++ dataFilePath else "")
    extractQueryTemplate

/-- The extraction execution loop plus the final close
(`extract_data`, `extraction.py` lines 153-169): each work item carries its
provenance (the data-file path) and the outcome of executing its rendered
query.  `duckdb.IOException` is caught and logged as a warning (the item is
recorded in `skipped`); any other exception propagates immediately, so the
remaining items never run and `close_database_connection` (line 169) is never
reached. -/
def extractLoop : List (String × Outcome) → RunResult
  | [] => ⟨[], [], 1, none⟩
  | (q, o) :: rest =>
    match o with
    | .ok =>
      let r := extractLoop rest
      ⟨q :: r.executed, r.skipped, r.sessionCloses, r.failure⟩
    | .ioException =>
      let r := extractLoop rest
      ⟨r.executed, q :: r.skipped, r.sessionCloses, r.failure⟩
    | .otherError => ⟨[], [], 0, some q⟩

/-- Model of `extract_data` (`extraction.py` lines 114-169) after the location
ids are read: compile the work list of data-file paths, then run the
extraction loop, the environment `env` giving each path's execution outcome. -/
def extractData (locationIds : List String) (startDate endDate : String)
    (env : String → Outcome) : Except String RunResult :=
  (compileDataFilePaths dataFilePathTemplate locationIds startDate endDate).map
    (fun paths => extractLoop (paths.map (fun p => (p, env p))))

/-- The fail-fast execution loop plus the final close, shared shape of
`transform_data` (`transformation.py` lines 30-37) and `setup_database`
(`database_manager.py` lines 125-131): there is no `try`/`except`, so any
exception propagates immediately, the remaining items never run and
`close_database_connection` is never reached. -/
def failFastLoop : List (String × Outcome) → RunResult
  | [] => ⟨[], [], 1, none⟩
  | (q, o) :: rest =>
    match o with
    | .ok =>
      let r := failFastLoop rest
      ⟨q :: r.executed, r.skipped, r.sessionCloses, r.failure⟩
    | _ => ⟨[], [], 0, some q⟩

/-- A directory tree: the plain files it contains directly and its named
subdirectories.  Models the tree rooted at the directory `os.walk` starts
from. -/
inductive Dir where
  | mk : List String → List (String × Dir) → Dir

/-- Direct files of a directory node. -/
def Dir.files : Dir → List String
  | .mk fs _ => fs

/-- Named subdirectories of a directory node. -/
def Dir.subdirs : Dir → List (String × Dir)
  | .mk _ ds => ds

/-- Model of `os.path.join(root, name)` for a nonempty POSIX `root` without a
trailing separator, the only shape used by this repository. -/
def pathJoin (root name : String) : String := root ++ "/" ++ name

mutual

/-- Model of `os.walk(parent_dir)` (`database_manager.py` line 61): the
`(root, files)` pairs of the tree in top-down order (Python's default),
subdirectories visited in their listed order. -/
def walk (root : String) : Dir → List (String × List String)
  | .mk files subs => (root, files) :: walkDirs root subs

/-- Walk a list of named subdirectories of `root` in order. -/
def walkDirs (root : String) : List (String × Dir) → List (String × List String)
  | [] => []
  | (name, d) :: rest => walk (pathJoin root name) d ++ walkDirs root rest

end

mutual

/-- All `(directory path, file name)` pairs of the tree at any depth, in
top-down order; the reference notion of "the files found at any depth" a
catalog result is compared against. -/
def treeFiles (root : String) : Dir → List (String × String)
  | .mk files subs => files.map (fun f => (root, f)) ++ treeFilesDirs root subs

/-- Files at any depth below a list of named subdirectories of `root`. -/
def treeFilesDirs (root : String) : List (String × Dir) → List (String × String)
  | [] => []
  | (name, d) :: rest => treeFiles (pathJoin root name) d ++ treeFilesDirs root rest

end

/-- Model of Python `file.endswith(".sql")` (`database_manager.py` line 64). -/
def hasSqlExt (s : String) : Bool :=
  match s.data.reverse with
  | 'l' :: 'q' :: 's' :: '.' :: _ => true
  | _ => false

/-- Lexicographic comparison of character lists by code point; this is how
Python compares strings (`sorted` on `str` sorts by it). -/
def lexLeChars : List Char → List Char → Bool
  | [], _ => true
  | _ :: _, [] => false
  | a :: as, b :: bs =>
    if a.toNat < b.toNat then true
    else if b.toNat < a.toNat then false
    else lexLeChars as bs

/-- Python's `<=` on strings: lexicographic by code point. -/
def strLe (a b : String) : Bool := lexLeChars a.data b.data

/-- The matching full paths contributed by one `(root, files)` pair of the
walk: the inner `for file in files` loop of `collect_query_paths`
(`database_manager.py` lines 62-66). -/
def sqlMatches (rf : String × List String) : List String :=
  (rf.2.filter hasSqlExt).map (pathJoin rf.1)

/-- Accumulate the matches of a walk sequence and sort them ascending, as
`sorted(sql_files)` does (`database_manager.py` line 70). -/
def collectFromWalk (walked : List (String × List String)) : List String :=
  List.insertionSort (fun a b => strLe a b = true) (walked.flatMap sqlMatches)

/-- Model of `collect_query_paths(parent_dir)` (`database_manager.py` lines
47-70) on an existing directory tree. -/
def collectQueryPaths (parentDir : String) (d : Dir) : List String :=
  collectFromWalk (walk parentDir d)

/-- Model of `collect_query_paths` including the filesystem lookup of the
root: `none` is a nonexistent `parent_dir`, for which `os.walk` (with its
default `onerror=None`) silently yields no entries and raises nothing, so the
function returns an empty list; no code path raises, hence the result is
always `.ok`. -/
def collectQueryPathsFS (parentDir : String) (fs : Option Dir) :
    Except String (List String) :=
  match fs with
  | none => .ok []
  | some d => .ok (collectQueryPaths parentDir d)

/-- Model of `transform_data` (`transformation.py` lines 14-37): open the
session, collect the query paths, run them fail-fast, close on the way out of
a completed loop.  `env` gives the execution outcome of the query at each
path. -/
def transformData (queryDirectory : String) (d : Dir) (env : String → Outcome) :
    RunResult :=
  failFastLoop ((collectQueryPaths queryDirectory d).map (fun p => (p, env p)))

/-- Model of `setup_database` (`database_manager.py` lines 106-131): collect
the DDL query paths, open the session, run them fail-fast, close on the way
out of a completed loop. -/
def setupDatabase (ddlQueryParentDir : String) (d : Dir) (env : String → Outcome) :
    RunResult :=
  failFastLoop ((collectQueryPaths ddlQueryParentDir d).map (fun p => (p, env p)))

/-- Model of `destroy_database` (`database_manager.py` lines 134-146) over a
filesystem abstracted as the existence predicate of each path: `os.remove` is
only called under the `os.path.exists` guard, so no code path raises and the
result is always `.ok` with the updated filesystem. -/
def destroyDatabase (fs : String → Bool) (databasePath : String) :
    Except String (String → Bool) :=
  if fs databasePath then .ok (fun q => if q = databasePath then false else fs q)
  else .ok fs

/-- The remote partition path convention exactly as §6 of the specification
words it: `entityid={id}/year={YYYY}/month={MM}/*`.  Stated from the spec, to
be compared with what the code renders. -/
def specPathConvention (id yyyy mm : String) : String :=
  "entityid=" ++ id ++ "/year=" ++ yyyy ++ "/month=" ++ mm ++ "/*"

/-- Rendering the data-file path template substitutes its three placeholders
and leaves the rest of the template literal. -/
theorem render_dataFilePathTemplate (b : String → String) :
    render b dataFilePathTemplate =
      "locationid=" ++ b "location_id" ++ "/year=" ++ b "year" ++
        "/month=" ++ b "month" ++ "/*" := by
  apply String.ext
  simp [render, renderChars, findPlaceholder, dataFilePathTemplate, String.data_append]

/-- The path rendered for a location and month index, written out. -/
theorem renderPath_dataFilePathTemplate (locId : String) (idx : Nat) :
    renderPath dataFilePathTemplate locId idx =
      "locationid=" ++ locId ++ "/year=" ++ toString (idx / 12) ++
        "/month=" ++ zfill 2 (toString (idx % 12 + 1)) ++ "/*" := by
  rw [renderPath, render_dataFilePathTemplate]
  rfl

/-- Substituting into a query template that is a bare `data_file_path`
placeholder yields the base path joined to the data file path with `/`. -/
theorem compileDataFileQuery_placeholder (basePath dataFilePath : String) :
    compileDataFileQuery basePath dataFilePath "{{data_file_path}}" =
      basePath ++ "/" ++ dataFilePath := by
  apply String.ext
  simp [compileDataFileQuery, render, renderChars, findPlaceholder]

/-- Unfolding of the month loop when the current month is past the end: the
loop body never runs, so no increment happens and the empty list is
returned. -/
theorem monthLoop_of_gt {s e : Nat} (tmpl locId : String) (h : ¬ s ≤ e) :
    monthLoop tmpl locId s e = .ok [] := by
  rw [monthLoop]
  simp [h]

/-- Unfolding of the month loop when the increment from the current month
would pass `datetime.max`: the `relativedelta` addition raises. -/
theorem monthLoop_max {s e : Nat} (tmpl locId : String) (h : s ≤ e)
    (hm : ¬ s + 1 ≤ maxMonthIndex) :
    monthLoop tmpl locId s e = .error "ValueError: year 10000 is out of range" := by
  rw [monthLoop]
  simp [h, hm]

/-- When the end month is before 9999-12, the month loop returns exactly the
`e + 1 - s` consecutive months from `s`, in chronological order. -/
theorem monthLoop_eq_range (tmpl locId : String) :
    ∀ n s e : Nat, e + 1 - s = n → e < maxMonthIndex →
      monthLoop tmpl locId s e =
        .ok ((List.range n).map (fun i => renderPath tmpl locId (s + i))) := by
  intro n
  induction n with
  | zero =>
    intro s e h _
    have hgt : ¬ s ≤ e := by omega
    simp [monthLoop_of_gt tmpl locId hgt]
  | succ n ih =>
    intro s e h hmax
    have hle : s ≤ e := by omega
    have hm : s + 1 ≤ maxMonthIndex := by omega
    rw [monthLoop, dif_pos hle, if_pos hm, ih (s + 1) e (by omega) hmax]
    simp only [List.range_succ_eq_map, List.map_cons, List.map_map, Nat.add_zero]
    congr 2
    apply List.map_congr_left
    intro i _
    simp only [Function.comp]
    congr 1
    omega

/-- Any list the month loop returns is the chronological render list — the
`.ok` results are characterized unconditionally, whatever the bounds. -/
theorem monthLoop_ok (tmpl locId : String) :
    ∀ n s e : Nat, e + 1 - s = n → ∀ l, monthLoop tmpl locId s e = .ok l →
      l = (List.range n).map (fun i => renderPath tmpl locId (s + i)) := by
  intro n
  induction n with
  | zero =>
    intro s e h l hl
    have hgt : ¬ s ≤ e := by omega
    rw [monthLoop_of_gt tmpl locId hgt] at hl
    cases hl
    simp
  | succ n ih =>
    intro s e h l hl
    have hle : s ≤ e := by omega
    by_cases hm : s + 1 ≤ maxMonthIndex
    · rw [monthLoop, dif_pos hle, if_pos hm] at hl
      cases hrec : monthLoop tmpl locId (s + 1) e with
      | ok rest =>
        rw [hrec] at hl
        simp only [Except.ok.injEq] at hl
        subst hl
        rw [ih (s + 1) e (by omega) rest hrec]
        simp only [List.range_succ_eq_map, List.map_cons, List.map_map, Nat.add_zero]
        congr 1
        apply List.map_congr_left
        intro i _
        simp only [Function.comp]
        congr 1
        omega
      | error msg =>
        rw [hrec] at hl
        cases hl
    · rw [monthLoop_max tmpl locId hle hm] at hl
      cases hl

/-- When the end month is before 9999-12, the per-location loop returns the
concatenation, in input order, of each location's chronological month
renderings. -/
theorem compileDataFilePathsLoop_flatMap (tmpl : String) (locationIds : List String)
    (s e : Nat) (hmax : e < maxMonthIndex) :
    compileDataFilePathsLoop tmpl locationIds s e =
      .ok (locationIds.flatMap (fun locId =>
        (List.range (e + 1 - s)).map (fun i => renderPath tmpl locId (s + i)))) := by
  induction locationIds with
  | nil => simp [compileDataFilePathsLoop]
  | cons locId rest ih =>
    rw [compileDataFilePathsLoop,
      monthLoop_eq_range tmpl locId (e + 1 - s) s e rfl hmax, ih]
    simp

/-- Any list the per-location loop returns is the flatMap of per-location
chronological renders, whatever the bounds. -/
theorem compileDataFilePathsLoop_ok (tmpl : String) (locationIds : List String)
    (s e : Nat) : ∀ l, compileDataFilePathsLoop tmpl locationIds s e = .ok l →
      l = locationIds.flatMap (fun locId =>
        (List.range (e + 1 - s)).map (fun i => renderPath tmpl locId (s + i))) := by
  induction locationIds with
  | nil =>
    intro l hl
    cases hl
    simp
  | cons locId rest ih =>
    intro l hl
    rw [compileDataFilePathsLoop] at hl
    cases hm : monthLoop tmpl locId s e with
    | error msg =>
      rw [hm] at hl
      cases hl
    | ok paths =>
      rw [hm] at hl
      cases hr : compileDataFilePathsLoop tmpl rest s e with
      | error msg =>
        rw [hr] at hl
        cases hl
      | ok restPaths =>
        rw [hr] at hl
        simp only [Except.ok.injEq] at hl
        subst hl
        rw [monthLoop_ok tmpl locId (e + 1 - s) s e rfl paths hm, ih restPaths hr,
          List.flatMap_cons]

/-- Length of a flatMap whose per-element lists all have the same length. -/
theorem length_flatMap_renders (locationIds : List String) (f : String → List String)
    (n : Nat) (h : ∀ locId, (f locId).length = n) :
    (locationIds.flatMap f).length = locationIds.length * n := by
  induction locationIds with
  | nil => simp
  | cons locId rest ih =>
    simp [h, ih]
    ring

/-- The zero-padded rendering of any calendar month number has exactly two
characters. -/
theorem zfill_month_length : ∀ m : Nat, m < 12 → (zfill 2 (toString (m + 1))).length = 2 := by
  decide

/-- When every item executes cleanly, the extraction loop executes all of them
in order, skips nothing, closes the session once and reports no failure. -/
theorem extractLoop_all_ok (items : List (String × Outcome))
    (h : ∀ x ∈ items, x.2 = Outcome.ok) :
    extractLoop items = ⟨items.map Prod.fst, [], 1, none⟩ := by
  induction items with
  | nil => rfl
  | cons x rest ih =>
    obtain ⟨q, o⟩ := x
    have ho : o = Outcome.ok := h (q, o) (List.mem_cons_self _ _)
    subst ho
    simp [extractLoop, ih fun y hy => h y (List.mem_cons_of_mem _ hy)]

/-- When no item raises an exception class other than `IOException`, the
extraction loop reaches the final close: one close, no propagated failure. -/
theorem extractLoop_no_fatal (items : List (String × Outcome))
    (h : ∀ x ∈ items, x.2 ≠ Outcome.otherError) :
    (extractLoop items).failure = none ∧ (extractLoop items).sessionCloses = 1 := by
  induction items with
  | nil => exact ⟨rfl, rfl⟩
  | cons x rest ih =>
    obtain ⟨q, o⟩ := x
    have ho : o ≠ Outcome.otherError := h (q, o) (List.mem_cons_self _ _)
    have ihr := ih fun y hy => h y (List.mem_cons_of_mem _ hy)
    cases o with
    | ok => simpa [extractLoop] using ihr
    | ioException => simpa [extractLoop] using ihr
    | otherError => exact absurd rfl ho

/-- The extraction run closes the session exactly when no failure propagates:
one close on completion, zero closes when an exception escapes the loop. -/
theorem extractLoop_closes (items : List (String × Outcome)) :
    (extractLoop items).sessionCloses = if (extractLoop items).failure.isSome then 0 else 1 := by
  induction items with
  | nil => rfl
  | cons x rest ih =>
    obtain ⟨q, o⟩ := x
    cases o with
    | ok => simpa [extractLoop] using ih
    | ioException => simpa [extractLoop] using ih
    | otherError => rfl

/-- The fail-fast run closes the session exactly when no failure propagates. -/
theorem failFastLoop_closes (items : List (String × Outcome)) :
    (failFastLoop items).sessionCloses = if (failFastLoop items).failure.isSome then 0 else 1 := by
  induction items with
  | nil => rfl
  | cons x rest ih =>
    obtain ⟨q, o⟩ := x
    cases o with
    | ok => simpa [failFastLoop] using ih
    | ioException => rfl
    | otherError => rfl

/-- Skip-and-log: if item `k` raises `IOException` and every other item
executes cleanly, the run executes all items except `k` in order, records
item `k` as skipped with its provenance, closes the session once and
completes without failure. -/
theorem extractLoop_skip (items : List (String × Outcome)) (k : Nat)
    (hk : k < items.length)
    (hio : (items.get ⟨k, hk⟩).2 = Outcome.ioException)
    (hok : ∀ j, (hj : j < items.length) → j ≠ k → (items.get ⟨j, hj⟩).2 = Outcome.ok) :
    extractLoop items =
      ⟨(items.eraseIdx k).map Prod.fst, [(items.get ⟨k, hk⟩).1], 1, none⟩ := by
  induction items generalizing k with
  | nil => exact absurd hk (by simp)
  | cons x rest ih =>
    obtain ⟨q, o⟩ := x
    cases k with
    | zero =>
      have ho : o = Outcome.ioException := hio
      subst ho
      have hrest : ∀ y ∈ rest, y.2 = Outcome.ok := by
        intro y hy
        obtain ⟨j, rfl⟩ := List.mem_iff_get.mp hy
        have hjl : j.val + 1 < rest.length + 1 := Nat.succ_lt_succ j.isLt
        exact hok (j.val + 1) (by simp) (by simp)
      simp [extractLoop, extractLoop_all_ok rest hrest]
    | succ k =>
      have ho : o = Outcome.ok := hok 0 (by simp) (by simp)
      subst ho
      have hk' : k < rest.length := by simpa using hk
      have ihr := ih k hk' hio fun j hj hne =>
        hok (j + 1) (by simpa using Nat.succ_lt_succ hj) (by simpa using hne)
      simp [extractLoop, ihr, List.eraseIdx_cons_succ]

/-- Abort in extraction: at the first item raising an exception class other
than `IOException`, the run stops; only the clean items before it executed,
only the `IOException` items before it were skipped, the session is never
closed and the failure carries item `k`'s provenance. -/
theorem extractLoop_abort (items : List (String × Outcome)) (k : Nat)
    (hk : k < items.length)
    (hfat : (items.get ⟨k, hk⟩).2 = Outcome.otherError)
    (hpre : ∀ j, (hj : j < items.length) → j < k → (items.get ⟨j, hj⟩).2 ≠ Outcome.otherError) :
    extractLoop items =
      ⟨((items.take k).filter (fun x => decide (x.2 = Outcome.ok))).map Prod.fst,
        ((items.take k).filter (fun x => decide (x.2 = Outcome.ioException))).map Prod.fst,
        0, some (items.get ⟨k, hk⟩).1⟩ := by
  induction items generalizing k with
  | nil => exact absurd hk (by simp)
  | cons x rest ih =>
    obtain ⟨q, o⟩ := x
    cases k with
    | zero =>
      have ho : o = Outcome.otherError := hfat
      subst ho
      simp [extractLoop]
    | succ k =>
      have ho : o ≠ Outcome.otherError := hpre 0 (by simp) (by simp)
      have hk' : k < rest.length := by simpa using hk
      have ihr := ih k hk' hfat fun j hj hlt =>
        hpre (j + 1) (by simpa using Nat.succ_lt_succ hj) (by simpa using hlt)
      cases o with
      | ok => simp [extractLoop, ihr]
      | ioException => simp [extractLoop, ihr]
      | otherError => exact absurd rfl ho

/-- Fail-fast: if every item before `k` executes cleanly and item `k` raises
any exception, the run executes exactly the items before `k` in order, never
closes the session, and the reported failure carries item `k`'s provenance. -/
theorem failFastLoop_abort (items : List (String × Outcome)) (k : Nat)
    (hk : k < items.length)
    (hfail : (items.get ⟨k, hk⟩).2 ≠ Outcome.ok)
    (hpre : ∀ j, (hj : j < items.length) → j < k → (items.get ⟨j, hj⟩).2 = Outcome.ok) :
    failFastLoop items =
      ⟨(items.take k).map Prod.fst, [], 0, some (items.get ⟨k, hk⟩).1⟩ := by
  induction items generalizing k with
  | nil => exact absurd hk (by simp)
  | cons x rest ih =>
    obtain ⟨q, o⟩ := x
    cases k with
    | zero =>
      cases o with
      | ok => exact absurd hfail (by simp)
      | ioException => simp [failFastLoop]
      | otherError => simp [failFastLoop]
    | succ k =>
      have ho : o = Outcome.ok := hpre 0 (by simp) (by simp)
      subst ho
      have hk' : k < rest.length := by simpa using hk
      have ihr := ih k hk' hfail fun j hj hlt =>
        hpre (j + 1) (by simpa using Nat.succ_lt_succ hj) (by simpa using hlt)
      simp [failFastLoop, ihr]

/-- When every item executes cleanly, the fail-fast loop executes all of them
in order, closes the session once and reports no failure. -/
theorem failFastLoop_all_ok (items : List (String × Outcome))
    (h : ∀ x ∈ items, x.2 = Outcome.ok) :
    failFastLoop items = ⟨items.map Prod.fst, [], 1, none⟩ := by
  induction items with
  | nil => rfl
  | cons x rest ih =>
    obtain ⟨q, o⟩ := x
    have ho : o = Outcome.ok := h (q, o) (List.mem_cons_self _ _)
    subst ho
    simp [failFastLoop, ih fun y hy => h y (List.mem_cons_of_mem _ hy)]

/-- Totality of the code-point lexicographic comparison. -/
theorem lexLeChars_total : ∀ as bs : List Char, lexLeChars as bs = true ∨ lexLeChars bs as = true := by
  intro as
  induction as with
  | nil => intro bs; left; rfl
  | cons a as ih =>
    intro bs
    cases bs with
    | nil => right; rfl
    | cons b bs =>
      rcases Nat.lt_trichotomy a.toNat b.toNat with h | h | h
      · left; simp [lexLeChars, h]
      · rcases ih bs with ht | ht
        · left; simp [lexLeChars, h, ht]
        · right; simp [lexLeChars, h.symm, ht]
      · right; simp [lexLeChars, h]

/-- Transitivity of the code-point lexicographic comparison. -/
theorem lexLeChars_trans : ∀ as bs cs : List Char,
    lexLeChars as bs = true → lexLeChars bs cs = true → lexLeChars as cs = true := by
  intro as
  induction as with
  | nil => intro bs cs _ _; rfl
  | cons a as ih =>
    intro bs cs hab hbc
    cases bs with
    | nil => simp [lexLeChars] at hab
    | cons b bs =>
      cases cs with
      | nil => simp [lexLeChars] at hbc
      | cons c cs =>
        by_cases hab1 : a.toNat < b.toNat
        · by_cases hbc1 : b.toNat < c.toNat
          · simp [lexLeChars, Nat.lt_trans hab1 hbc1]
          · by_cases hbc2 : c.toNat < b.toNat
            · simp [lexLeChars, hbc1, hbc2] at hbc
            · have : a.toNat < c.toNat := by omega
              simp [lexLeChars, this]
        · by_cases hab2 : b.toNat < a.toNat
          · simp [lexLeChars, hab1, hab2] at hab
          · have hae : a.toNat = b.toNat := by omega
            by_cases hbc1 : b.toNat < c.toNat
            · simp [lexLeChars, hae ▸ hbc1]
            · by_cases hbc2 : c.toNat < b.toNat
              · simp [lexLeChars, hbc1, hbc2] at hbc
              · simp only [lexLeChars, hab1, hab2, if_false] at hab
                simp only [lexLeChars, hbc1, hbc2, if_false] at hbc
                have h1 : ¬ a.toNat < c.toNat := by omega
                have h2 : ¬ c.toNat < a.toNat := by omega
                simp [lexLeChars, h1, h2, ih bs cs hab hbc]

/-- Antisymmetry of the code-point lexicographic comparison. -/
theorem lexLeChars_antisymm : ∀ as bs : List Char,
    lexLeChars as bs = true → lexLeChars bs as = true → as = bs := by
  intro as
  induction as with
  | nil =>
    intro bs _ hba
    cases bs with
    | nil => rfl
    | cons b bs => simp [lexLeChars] at hba
  | cons a as ih =>
    intro bs hab hba
    cases bs with
    | nil => simp [lexLeChars] at hab
    | cons b bs =>
      by_cases h1 : a.toNat < b.toNat
      · have : ¬ b.toNat < a.toNat := by omega
        simp [lexLeChars, this, Nat.lt_asymm h1, h1] at hba
      · by_cases h2 : b.toNat < a.toNat
        · simp [lexLeChars, h1, h2] at hab
        · have hcn : a.toNat = b.toNat := by omega
          have hc : a = b := Char.ext (UInt32.toNat.inj hcn)
          simp only [lexLeChars, h1, h2, if_false] at hab hba
          rw [hc, ih bs hab hba]

instance : IsTotal String (fun a b => strLe a b = true) :=
  ⟨fun a b => lexLeChars_total a.data b.data⟩

instance : IsTrans String (fun a b => strLe a b = true) :=
  ⟨fun a b c => lexLeChars_trans a.data b.data c.data⟩

instance : IsAntisymm String (fun a b => strLe a b = true) :=
  ⟨fun a b h1 h2 => String.ext (lexLeChars_antisymm a.data b.data h1 h2)⟩

mutual

/-- The matches gathered along a walk of the tree are exactly the files of
the tree, at any depth, whose name has the `.sql` extension, each joined to
its directory's path. -/
theorem walk_sqlMatches (root : String) : (d : Dir) →
    (walk root d).flatMap sqlMatches =
      ((treeFiles root d).filter (fun rf => hasSqlExt rf.2)).map (fun rf => pathJoin rf.1 rf.2)
  | .mk files subs => by
    rw [walk, treeFiles, List.flatMap_cons, walkDirs_sqlMatches root subs]
    simp only [sqlMatches, List.filter_append, List.filter_map, List.map_map, List.map_append]
    rfl

/-- Subdirectory-list version of `walk_sqlMatches`. -/
theorem walkDirs_sqlMatches (root : String) : (subs : List (String × Dir)) →
    (walkDirs root subs).flatMap sqlMatches =
      ((treeFilesDirs root subs).filter (fun rf => hasSqlExt rf.2)).map
        (fun rf => pathJoin rf.1 rf.2)
  | [] => by simp [walkDirs, treeFilesDirs]
  | (name, d) :: rest => by
    rw [walkDirs, treeFilesDirs, List.flatMap_append,
      walk_sqlMatches (pathJoin root name) d, walkDirs_sqlMatches root rest]
    simp [List.filter_append]

end

/-- The catalog result is a permutation of the `.sql`-named files of the tree
at any depth, each joined to its directory's path. -/
theorem collectQueryPaths_perm (root : String) (d : Dir) :
    (collectQueryPaths root d).Perm
      (((treeFiles root d).filter (fun rf => hasSqlExt rf.2)).map
        (fun rf => pathJoin rf.1 rf.2)) := by
  rw [collectQueryPaths, collectFromWalk, ← walk_sqlMatches root d]
  exact List.perm_insertionSort _ _

/-- The catalog result is sorted ascending in the code-point lexicographic
order on full paths. -/
theorem collectQueryPaths_sorted (root : String) (d : Dir) :
    List.Sorted (fun a b => strLe a b = true) (collectQueryPaths root d) :=
  List.sorted_insertionSort _ _

/-- Membership in the catalog result: exactly the `.sql`-named files of the
tree, at any depth, under their full joined path. -/
theorem mem_collectQueryPaths (root : String) (d : Dir) (p : String) :
    p ∈ collectQueryPaths root d ↔
      ∃ r f, (r, f) ∈ treeFiles root d ∧ hasSqlExt f = true ∧ p = pathJoin r f := by
  rw [(collectQueryPaths_perm root d).mem_iff]
  simp only [List.mem_map, List.mem_filter]
  constructor
  · rintro ⟨rf, ⟨hm, hs⟩, rfl⟩
    exact ⟨rf.1, rf.2, hm, hs, rfl⟩
  · rintro ⟨r, f, hm, hs, rfl⟩
    exact ⟨(r, f), ⟨hm, hs⟩, rfl⟩

/-- Sorting the matches of any reordering of the walk yields the same catalog
result: the output does not depend on the filesystem's traversal order. -/
theorem collectFromWalk_perm_invariant (root : String) (d : Dir)
    (walked : List (String × List String)) (h : walked.Perm (walk root d)) :
    collectFromWalk walked = collectQueryPaths root d := by
  apply List.eq_of_perm_of_sorted _ (List.sorted_insertionSort _ _)
    (collectQueryPaths_sorted root d)
  exact (List.perm_insertionSort _ _).trans
    ((h.flatMap_right sqlMatches).trans (List.perm_insertionSort _ _).symm)

/-- Counterexample to C1: at start = end = 9999-12 — accepted by `strptime`
and satisfying start ≤ end — with one location, the claim predicts the
one-element path list, but the loop's final
`index_date += relativedelta(months=1)` computes year 10000 and raises
`ValueError: year 10000 is out of range` (`datetime.MAXYEAR` is 9999), so
`compile_data_file_paths` raises instead of returning. -/
theorem c1_counterexample :
    compileDataFilePaths dataFilePathTemplate ["A"] "9999-12" "9999-12" =
      .error "ValueError: year 10000 is out of range" := by
  have hp : parseYM "9999-12" = some 119999 := rfl
  have hm := monthLoop_max dataFilePathTemplate "A" (le_refl 119999) (by decide)
  simp only [compileDataFilePaths, hp]
  rw [compileDataFilePathsLoop, hm]

/-- C1 as amended: for every list of location ids and every parsed month pair
with start ≤ end and the end month before 9999-12, `compile_data_file_paths`
yields exactly one rendered partition path per location per calendar month
from start to end inclusive, locations in input order and months in
chronological order within each location, the month zero-padded to two
digits; any returned list's length is the number of locations times the
inclusive month count.  (At end month 9999-12 with at least one location the
source instead raises `ValueError` from the final month increment.) -/
theorem c1_partition_expansion (locationIds : List String) (startDate endDate : String)
    (s e : Nat) (hs : parseYM startDate = some s) (he : parseYM endDate = some e)
    (_hle : s ≤ e) (hmax : e < maxMonthIndex) :
    compileDataFilePaths dataFilePathTemplate locationIds startDate endDate =
      .ok (locationIds.flatMap (fun locId =>
        (List.range (e + 1 - s)).map (fun i =>
          "locationid=" ++ locId ++ "/year=" ++ toString ((s + i) / 12) ++
            "/month=" ++ zfill 2 (toString ((s + i) % 12 + 1)) ++ "/*")))
    ∧ (∀ l, compileDataFilePaths dataFilePathTemplate locationIds startDate endDate = .ok l →
        l.length = locationIds.length * (e + 1 - s))
    ∧ ∀ i : Nat, (zfill 2 (toString ((s + i) % 12 + 1))).length = 2 := by
  have hok : compileDataFilePaths dataFilePathTemplate locationIds startDate endDate =
      .ok (locationIds.flatMap (fun locId =>
        (List.range (e + 1 - s)).map (fun i =>
          renderPath dataFilePathTemplate locId (s + i)))) := by
    simp only [compileDataFilePaths, hs, he]
    exact compileDataFilePathsLoop_flatMap dataFilePathTemplate locationIds s e hmax
  refine ⟨?_, ?_, fun i => zfill_month_length _ (Nat.mod_lt _ (by norm_num))⟩
  · rw [hok]
    simp only [renderPath_dataFilePathTemplate]
  · intro l hl
    rw [hok] at hl
    simp only [Except.ok.injEq] at hl
    subst hl
    exact length_flatMap_renders locationIds _ (e + 1 - s) (fun locId => by simp)

/-- Witness for the amended C1: the specification's end-to-end scenario 1,
locations `A`, `B` over 2024-01..2024-02. -/
theorem c1_partition_expansion_witness :
    compileDataFilePaths dataFilePathTemplate ["A", "B"] "2024-01" "2024-02" =
      .ok ["locationid=A/year=2024/month=01/*", "locationid=A/year=2024/month=02/*",
        "locationid=B/year=2024/month=01/*", "locationid=B/year=2024/month=02/*"] := by
  have h := (c1_partition_expansion ["A", "B"] "2024-01" "2024-02" 24288 24289 rfl rfl
    (by decide) (by decide)).1
  exact h.trans (congrArg Except.ok (by decide))

/-- C2: in an extraction work list where item `k` raises the driver's
`IOException` (partition not found) and the other items execute cleanly, the
engine records item `k`'s provenance as skipped, executes every other item in
order, and the run completes with the session closed; an exception of any
other class aborts the run at its item with no subsequent item executed and
the failing item's provenance reported. -/
theorem c2_skip_and_log :
    (∀ (items : List (String × Outcome)) (k : Nat) (hk : k < items.length),
      (items.get ⟨k, hk⟩).2 = Outcome.ioException →
      (∀ j, (hj : j < items.length) → j ≠ k → (items.get ⟨j, hj⟩).2 = Outcome.ok) →
      extractLoop items =
        ⟨(items.eraseIdx k).map Prod.fst, [(items.get ⟨k, hk⟩).1], 1, none⟩)
    ∧ (∀ (items : List (String × Outcome)) (k : Nat) (hk : k < items.length),
      (items.get ⟨k, hk⟩).2 = Outcome.otherError →
      (∀ j, (hj : j < items.length) → j < k → (items.get ⟨j, hj⟩).2 ≠ Outcome.otherError) →
      extractLoop items =
        ⟨((items.take k).filter (fun x => decide (x.2 = Outcome.ok))).map Prod.fst,
          ((items.take k).filter (fun x => decide (x.2 = Outcome.ioException))).map Prod.fst,
          0, some (items.get ⟨k, hk⟩).1⟩) :=
  ⟨extractLoop_skip, extractLoop_abort⟩

/-- Witness for C2: the specification's end-to-end scenario 3, three work
items where the second raises partition-not-found. -/
theorem c2_skip_and_log_witness :
    extractLoop [("q1", Outcome.ok), ("q2", Outcome.ioException), ("q3", Outcome.ok)] =
      ⟨["q1", "q3"], ["q2"], 1, none⟩ := by
  have h := c2_skip_and_log.1
    [("q1", Outcome.ok), ("q2", Outcome.ioException), ("q3", Outcome.ok)] 1
    (by decide) (by decide) (by decide)
  exact h.trans (by decide)

/-- C3: in a fail-fast (schema-setup or transformation) work list where every
item before `k` executes cleanly and item `k` raises any execution error, the
run aborts reporting item `k`'s provenance and no item after `k` is executed;
`transform_data` and `setup_database` both run their catalog through this
fail-fast loop. -/
theorem c3_fail_fast :
    (∀ (items : List (String × Outcome)) (k : Nat) (hk : k < items.length),
      (items.get ⟨k, hk⟩).2 ≠ Outcome.ok →
      (∀ j, (hj : j < items.length) → j < k → (items.get ⟨j, hj⟩).2 = Outcome.ok) →
      failFastLoop items =
        ⟨(items.take k).map Prod.fst, [], 0, some (items.get ⟨k, hk⟩).1⟩)
    ∧ (∀ (queryDirectory : String) (d : Dir) (env : String → Outcome),
      transformData queryDirectory d env =
        failFastLoop ((collectQueryPaths queryDirectory d).map (fun p => (p, env p))))
    ∧ (∀ (ddlQueryParentDir : String) (d : Dir) (env : String → Outcome),
      setupDatabase ddlQueryParentDir d env =
        failFastLoop ((collectQueryPaths ddlQueryParentDir d).map (fun p => (p, env p)))) :=
  ⟨failFastLoop_abort, fun _ _ _ => rfl, fun _ _ _ => rfl⟩

/-- Witness for C3: three queries, the second fails, the third never runs. -/
theorem c3_fail_fast_witness :
    failFastLoop [("0_a.sql", Outcome.ok), ("1_b.sql", Outcome.otherError),
        ("2_c.sql", Outcome.ok)] =
      ⟨["0_a.sql"], [], 0, some "1_b.sql"⟩ := by
  have h := c3_fail_fast.1
    [("0_a.sql", Outcome.ok), ("1_b.sql", Outcome.otherError), ("2_c.sql", Outcome.ok)] 1
    (by decide) (by decide) (by decide)
  exact h.trans (by decide)

/-- C4: for every directory tree, `collect_query_paths` returns exactly the
files whose name ends in `.sql`, found at any depth, under their full joined
paths, sorted ascending in the lexicographic (code-point) order on full
paths, and the result is the same for every traversal order of the
filesystem. -/
theorem c4_query_catalog (root : String) (d : Dir) :
    List.Sorted (fun a b => strLe a b = true) (collectQueryPaths root d)
    ∧ (∀ p, p ∈ collectQueryPaths root d ↔
        ∃ r f, (r, f) ∈ treeFiles root d ∧ hasSqlExt f = true ∧ p = pathJoin r f)
    ∧ (∀ walked, walked.Perm (walk root d) →
        collectFromWalk walked = collectQueryPaths root d) :=
  ⟨collectQueryPaths_sorted root d, mem_collectQueryPaths root d,
    collectFromWalk_perm_invariant root d⟩

/-- Witness for C4: the specification's end-to-end scenario 2, with the walk
handed over in a different traversal order. -/
theorem c4_query_catalog_witness :
    collectFromWalk [("root/sub", ["c.sql"]), ("root", ["b.sql", "a.sql"])] =
      ["root/a.sql", "root/b.sql", "root/sub/c.sql"] := by
  have h := (c4_query_catalog "root"
    (Dir.mk ["b.sql", "a.sql"] [("sub", Dir.mk ["c.sql"] [])])).2.2
    [("root/sub", ["c.sql"]), ("root", ["b.sql", "a.sql"])] (by decide)
  exact h.trans (by decide)

/-- Counterexample to C5: a one-item extraction work list whose item raises a
fatal (non-`IOException`) error; the failure propagates out of the run and
the session is closed zero times, not once — the source loops have no
`try`/`finally` around `close_database_connection`. -/
theorem c5_counterexample :
    (extractLoop [("q", Outcome.otherError)]).failure = some "q" ∧
      (extractLoop [("q", Outcome.otherError)]).sessionCloses = 0 := by
  decide

/-- C5 as amended: the session is closed exactly once whenever the run
completes (normal completion, including skipped items and the empty work
list), but when a fatal query-execution failure propagates out of a run the
session is closed zero times. -/
theorem c5_session_close_amended :
    (∀ items : List (String × Outcome), (∀ x ∈ items, x.2 ≠ Outcome.otherError) →
      (extractLoop items).failure = none ∧ (extractLoop items).sessionCloses = 1)
    ∧ (∀ items : List (String × Outcome),
        (extractLoop items).sessionCloses =
          if (extractLoop items).failure.isSome then 0 else 1)
    ∧ (∀ items : List (String × Outcome),
        (failFastLoop items).sessionCloses =
          if (failFastLoop items).failure.isSome then 0 else 1) :=
  ⟨extractLoop_no_fatal, extractLoop_closes, failFastLoop_closes⟩

/-- Witness for the amended C5: a completing extraction run with one skipped
item closes the session exactly once. -/
theorem c5_session_close_amended_witness :
    (extractLoop [("a", Outcome.ok), ("b", Outcome.ioException)]).sessionCloses = 1 :=
  (c5_session_close_amended.1 [("a", Outcome.ok), ("b", Outcome.ioException)]
    (by decide)).2

/-- Counterexample to C6: `collect_query_paths` on a nonexistent root
directory returns an empty list without raising — `os.walk` with its default
`onerror=None` silently yields nothing — so a missing directory is not a
fatal error. -/
theorem c6_counterexample :
    collectQueryPathsFS "missing-dir" none = Except.ok [] := rfl

/-- C6 as amended: a nonexistent root directory yields an empty catalog with
no error (identical to zero matches), and an empty catalog is a valid no-op
run: the session is opened and closed once, no query is executed, and no
error occurs. -/
theorem c6_empty_catalog_amended :
    (∀ root : String, collectQueryPathsFS root none = Except.ok [])
    ∧ (∀ (root : String) (d : Dir) (env : String → Outcome),
        collectQueryPaths root d = [] →
          transformData root d env = ⟨[], [], 1, none⟩ ∧
            setupDatabase root d env = ⟨[], [], 1, none⟩) := by
  refine ⟨fun _ => rfl, fun root d env h => ?_⟩
  constructor <;> simp [transformData, setupDatabase, h, failFastLoop]

/-- Witness for the amended C6: a directory with no `.sql` file gives a no-op
transformation run even under an environment that would fail every query. -/
theorem c6_empty_catalog_amended_witness :
    transformData "queries" (Dir.mk ["notes.txt"] []) (fun _ => Outcome.otherError) =
      ⟨[], [], 1, none⟩ :=
  (c6_empty_catalog_amended.2 "queries" (Dir.mk ["notes.txt"] [])
    (fun _ => Outcome.otherError) (by decide)).1

/-- C7: when the parsed start month is later than the parsed end month,
partition expansion contributes zero partitions for every location and raises
no error, and the extraction run over the resulting empty work list executes
no queries (and completes, closing the session). -/
theorem c7_empty_range (tmpl : String) (locationIds : List String)
    (startDate endDate : String) (s e : Nat)
    (hs : parseYM startDate = some s) (he : parseYM endDate = some e) (hgt : e < s) :
    compileDataFilePaths tmpl locationIds startDate endDate = .ok []
    ∧ (∀ locId, monthLoop tmpl locId s e = .ok [])
    ∧ (∀ env, extractData locationIds startDate endDate env = .ok ⟨[], [], 1, none⟩) := by
  have hml : ∀ (t locId : String), monthLoop t locId s e = .ok [] := fun t locId =>
    monthLoop_of_gt t locId (by omega)
  have hloop : ∀ t : String, compileDataFilePathsLoop t locationIds s e = .ok [] := by
    intro t
    induction locationIds with
    | nil => rfl
    | cons locId rest ih => simp [compileDataFilePathsLoop, hml, ih]
  refine ⟨?_, fun locId => hml tmpl locId, fun env => ?_⟩
  · simp [compileDataFilePaths, hs, he, hloop]
  · simp [extractData, compileDataFilePaths, hs, he, hloop, extractLoop, Except.map]

/-- Witness for C7: start 2024-05, end 2024-01 yields an empty path list. -/
theorem c7_empty_range_witness :
    compileDataFilePaths dataFilePathTemplate ["A"] "2024-05" "2024-01" = .ok [] :=
  (c7_empty_range dataFilePathTemplate ["A"] "2024-05" "2024-01" 24292 24288 rfl rfl
    (by decide)).1

/-- C8: template rendering is a pure, deterministic function of the template
and the binding — in this embedding rendering the same template and binding
twice is literal reflexivity — and partition expansion reuses the one
unchanged template value across all its renders: its output is exactly the
per-location, per-month renders of the original template string with the
varying bindings. -/
theorem c8_render_pure :
    (∀ (b : String → String) (t : String), render b t = render b t)
    ∧ (∀ (tmpl : String) (locationIds : List String) (s e : Nat) l,
        compileDataFilePathsLoop tmpl locationIds s e = .ok l →
          l = locationIds.flatMap (fun locId =>
            (List.range (e + 1 - s)).map (fun i => renderPath tmpl locId (s + i)))) :=
  ⟨fun _ _ => rfl, compileDataFilePathsLoop_ok⟩

/-- Witness for C8: expansion over one location and one month is the single
render of the unchanged template. -/
theorem c8_render_pure_witness :
    ["locationid=A/year=2024/month=01/*"] =
      (["A"] : List String).flatMap (fun locId =>
        (List.range (24288 + 1 - 24288)).map
          (fun i => renderPath dataFilePathTemplate locId (24288 + i))) := by
  have h := c8_render_pure.2 dataFilePathTemplate ["A"] 24288 24288
    ["locationid=A/year=2024/month=01/*"]
    ((compileDataFilePathsLoop_flatMap dataFilePathTemplate ["A"] 24288 24288
      (by decide)).trans (congrArg Except.ok (by decide)))
  exact h

/-- Counterexample to C9: the code's template begins `locationid=`, not
`entityid=`, and renders the year as `str(year)` without zero padding, so for
location `A` and month 0042-01 the produced path matches neither the
convention as worded in the specification nor its variant with the unpadded
year. -/
theorem c9_counterexample :
    compileDataFilePaths dataFilePathTemplate ["A"] "0042-01" "0042-01" =
      .ok ["locationid=A/year=42/month=01/*"]
    ∧ "locationid=A/year=42/month=01/*" ≠ specPathConvention "A" "0042" "01"
    ∧ "locationid=A/year=42/month=01/*" ≠ specPathConvention "A" "42" "01" := by
  refine ⟨?_, by decide, by decide⟩
  have h : parseYM "0042-01" = some 504 := rfl
  simp only [compileDataFilePaths, h]
  rw [compileDataFilePathsLoop_flatMap dataFilePathTemplate ["A"] 504 504 (by decide)]
  exact congrArg Except.ok (by decide)

/-- C9 as amended: every produced data file path follows
`locationid={id}/year={Y}/month={MM}/*` where `Y` is the parsed year rendered
in decimal without zero padding and `MM` is the zero-padded two-digit month;
the path handed to the query template is the configurable base path joined to
this relative path with `/`. -/
theorem c9_path_convention_amended (locationIds : List String)
    (startDate endDate : String) (s e : Nat)
    (hs : parseYM startDate = some s) (he : parseYM endDate = some e) :
    (∀ l, compileDataFilePaths dataFilePathTemplate locationIds startDate endDate = .ok l →
      ∀ p ∈ l, ∃ locId i, locId ∈ locationIds ∧
        p = "locationid=" ++ locId ++ "/year=" ++ toString ((s + i) / 12) ++
          "/month=" ++ zfill 2 (toString ((s + i) % 12 + 1)) ++ "/*" ∧
        (zfill 2 (toString ((s + i) % 12 + 1))).length = 2)
    ∧ (∀ basePath dataFilePath : String,
        compileDataFileQuery basePath dataFilePath "{{data_file_path}}" =
          basePath ++ "/" ++ dataFilePath) := by
  constructor
  · intro l hl p hp
    simp only [compileDataFilePaths, hs, he] at hl
    have hl2 := compileDataFilePathsLoop_ok dataFilePathTemplate locationIds s e l hl
    subst hl2
    obtain ⟨locId, hloc, hp⟩ := List.mem_flatMap.mp hp
    obtain ⟨i, _, rfl⟩ := List.mem_map.mp hp
    exact ⟨locId, i, hloc, renderPath_dataFilePathTemplate locId (s + i),
      zfill_month_length _ (Nat.mod_lt _ (by norm_num))⟩
  · exact compileDataFileQuery_placeholder

/-- Witness for the amended C9: the base path is joined with `/` into the
query template. -/
theorem c9_path_convention_amended_witness :
    compileDataFileQuery "s3://bucket/records" "x" "{{data_file_path}}" =
      "s3://bucket/records/x" :=
  (c9_path_convention_amended [] "2024-01" "2024-01" 24288 24288 rfl rfl).2
    "s3://bucket/records" "x"

/-- C10: `destroy_database` never raises whether or not a file exists at the
path (the `os.remove` is guarded by `os.path.exists`), afterwards no file
exists at the path, and a second call returns the same filesystem — calling
it twice has the same effect as calling it once. -/
theorem c10_destroy_database (fs : String → Bool) (databasePath : String) :
    ∃ fs2, destroyDatabase fs databasePath = .ok fs2 ∧ fs2 databasePath = false ∧
      destroyDatabase fs2 databasePath = .ok fs2 := by
  by_cases h : fs databasePath = true
  · refine ⟨fun q => if q = databasePath then false else fs q, ?_, by simp, ?_⟩
    · simp [destroyDatabase, h]
    · simp [destroyDatabase]
  · refine ⟨fs, ?_, by simpa using h, ?_⟩
    · simp [destroyDatabase, h]
    · simp [destroyDatabase, h]
